import Mathlib

/-!
Shallow embedding of the Client-Information-DB-Sample-App server (src/app.js,
src/models/visit.js).  The Express handlers are modelled as pure functions of
their request inputs and of the outcomes of their external collaborators
(the geolocation HTTP call, the Sequelize store, the secret store, the clock).
-/

/-- A JavaScript runtime value as it occurs in the handler's data flow:
`undefined`, `null`, a string, or a number.  A number carries its rational
value `val` (used for truthiness tests) and the text `txt` produced by the
JS `toString` rendering of that number (used where the code calls
`.toString()`); IEEE-754 formatting itself is not re-implemented, no claim
inspects the rendering of a nonzero number. -/
inductive JVal where
  | undef : JVal
  | jnull : JVal
  | jstr (s : String) : JVal
  | jnum (val : ℚ) (txt : String) : JVal
deriving DecidableEq, Repr

/-- JS truthiness: `undefined`, `null`, `""` and `0` are falsy. -/
def JVal.truthy : JVal → Bool
  | .undef => false
  | .jnull => false
  | .jstr s => !(s == "")
  | .jnum v _ => !(v == 0)

/-- Models the expression `v || d` (with `d` a string literal) from app.js. -/
def JVal.orDefault (v : JVal) (d : String) : JVal :=
  if v.truthy then v else .jstr d

/-- Models JS `String(v)` / `v.toString()` on the values the handler builds. -/
def JVal.jsToString : JVal → String
  | .undef => "undefined"
  | .jnull => "null"
  | .jstr s => s
  | .jnum _ t => t

/-- Models `a || b` where `a` is a possibly-absent string (a header value or
socket address) and `b` the already-evaluated rest of the `||` chain. -/
def strOr (a : Option String) (b : String) : String :=
  match a with
  | some s => if s == "" then b else s
  | none => b

/-! ### JS `parseInt` (as invoked with no radix argument in app.js) -/

/-- Whitespace stripped by `parseInt` before parsing. -/
def jsWhitespace (c : Char) : Bool :=
  c == ' ' || c == '\t' || c == '\n' || c == '\r' || c == '\x0b' || c == '\x0c'

/-- Decimal digit value of a character, if any. -/
def decDigit? (c : Char) : Option Nat :=
  if '0' ≤ c ∧ c ≤ '9' then some (c.toNat - 48) else none

/-- Hexadecimal digit value of a character, if any. -/
def hexDigit? (c : Char) : Option Nat :=
  if '0' ≤ c ∧ c ≤ '9' then some (c.toNat - 48)
  else if 'a' ≤ c ∧ c ≤ 'f' then some (c.toNat - 87)
  else if 'A' ≤ c ∧ c ≤ 'F' then some (c.toNat - 55)
  else none

/-- Value of the longest digit prefix of `cs` in the given base. -/
def digitsValue (digit : Char → Option Nat) (base : Nat) (cs : List Char) : Nat :=
  (cs.takeWhile (fun c => (digit c).isSome)).foldl
    (fun acc c => acc * base + (digit c).getD 0) 0

/-- Whether `cs` starts with at least one digit. -/
def hasLeadingDigit (digit : Char → Option Nat) (cs : List Char) : Bool :=
  match cs with
  | [] => false
  | c :: _ => (digit c).isSome

/-- JS `parseInt(s)` with radix unspecified: skip whitespace, optional sign,
optional `0x`/`0X` hex prefix, then the longest digit prefix; `none` models
`NaN`.  (Huge values lose precision in a JS double; the handler only compares
them against 1 and 100, which is unaffected, so the exact integer is kept.) -/
def parseIntJS (s : String) : Option Int :=
  let cs := s.data.dropWhile jsWhitespace
  let signed : Int × List Char :=
    match cs with
    | '-' :: r => (-1, r)
    | '+' :: r => (1, r)
    | _ => (1, cs)
  let based : (Char → Option Nat) × Nat × List Char :=
    match signed.2 with
    | '0' :: 'x' :: r => (hexDigit?, 16, r)
    | '0' :: 'X' :: r => (hexDigit?, 16, r)
    | _ => (decDigit?, 10, signed.2)
  if hasLeadingDigit based.1 based.2.2 then
    some (signed.1 * (digitsValue based.1 based.2.1 based.2.2 : Int))
  else
    none

/-- Models `const value = query.value ?? dflt; parseInt(value)`: the JS object
destructuring default applies only when the query parameter is absent, and
`parseInt` of the numeric default yields the default itself. -/
def parsedParam (dflt : Int) (q : Option String) : Option Int :=
  match q with
  | none => some dflt
  | some s => parseIntJS s

/-! ### The Visit row and the store -/

/-- One persisted Visit row, as created by the capture endpoint and returned
by `/api/logs`.  `latitude` and `longitude` are strings because the inline
model in app.js declares them `DataTypes.STRING` and the handler stores
`locationData.latitude.toString()`.  `visited_at` is the row's timestamp
(column default `Sequelize.NOW`), modelled as milliseconds since the epoch. -/
structure VisitRec where
  ip : String
  user_agent : String
  city : JVal
  region : JVal
  country : JVal
  latitude : String
  longitude : String
  visited_at : Nat
deriving DecidableEq, Repr

/-- The `ORDER BY visited_at DESC` relation used by `/api/logs`. -/
def visitDescRel (a b : VisitRec) : Prop :=
  b.visited_at ≤ a.visited_at

instance : DecidableRel visitDescRel := fun a b => Nat.decLe b.visited_at a.visited_at

instance : IsTotal VisitRec visitDescRel :=
  ⟨fun a b => Nat.le_total b.visited_at a.visited_at⟩

instance : IsTrans VisitRec visitDescRel :=
  ⟨fun _ _ _ hab hbc => Nat.le_trans hbc hab⟩

/-- The store's table, ordered by `visited_at` descending (one concrete sort
realising the SQL ordering). -/
def sortByVisitedAtDesc (l : List VisitRec) : List VisitRec :=
  List.insertionSort visitDescRel l

/-- Model of `Visit.findAndCountAll` with offset, limit and the
`visited_at DESC` ordering: the count is the full table size, the rows are the requested window of the
ordered table. -/
def findAndCountAll (all : List VisitRec) (offset limit : Nat) : Nat × List VisitRec :=
  (all.length, ((sortByVisitedAtDesc all).drop offset).take limit)

/-! ### GET /api/logs -/

/-- Model of `Math.ceil(a / b)` for a natural `a` and positive natural `b`:
the exact ceiling of the division (JS computes it on doubles, which agrees
for every count reachable here); `mathCeilDiv_eq_ceil` below proves it is
the rational ceiling. -/
def mathCeilDiv (a b : Nat) : Nat := (a + b - 1) / b

/-- The response of the `/api/logs` handler. -/
inductive LogsResponse where
  | badRequest (error : String)
  | ok (totalRecords : Nat) (currentPage : Int) (totalPages : Nat) (logs : List VisitRec)
  | serverError (error : String)
deriving DecidableEq, Repr

/-- HTTP status code of a `/api/logs` response. -/
def LogsResponse.status : LogsResponse → Nat
  | .badRequest _ => 400
  | .ok _ _ _ _ => 200
  | .serverError _ => 500

def pageErrMsg : String := "Invalid page number. Must be a positive integer."

def limitErrMsg : String := "Invalid limit. Must be between 1 and 100."

/-- The `/api/logs` handler.  `pageQ`/`limitQ` are the raw query parameters
(absent or a string); `db` is the store outcome: `none` when
`findAndCountAll` throws (→ 500), `some all` the table contents otherwise.
Mirrors app.js: `parseInt` both parameters, reject NaN/`< 1` page, reject
NaN/`< 1`/`> 100` limit, then return the window with
`totalPages = Math.ceil(count / limitNum)`. -/
def handleLogs (pageQ limitQ : Option String) (db : Option (List VisitRec)) :
    LogsResponse :=
  match parsedParam 1 pageQ with
  | none => .badRequest pageErrMsg
  | some p =>
    if p < 1 then .badRequest pageErrMsg
    else
      match parsedParam 10 limitQ with
      | none => .badRequest limitErrMsg
      | some m =>
        if m < 1 ∨ 100 < m then .badRequest limitErrMsg
        else
          match db with
          | none => .serverError "Internal Server Error"
          | some all =>
            let offset := ((p - 1) * m).toNat
            let result := findAndCountAll all offset m.toNat
            .ok result.1 p (mathCeilDiv result.1 m.toNat) result.2

/-- The code's page-validity test: `parseInt(page)` is not NaN and `≥ 1`. -/
def jsPageOk (q : Option String) : Bool :=
  match parsedParam 1 q with
  | none => false
  | some p => decide (1 ≤ p)

/-- The code's limit-validity test: `parseInt(limit)` is not NaN and in
`[1, 100]`. -/
def jsLimitOk (q : Option String) : Bool :=
  match parsedParam 10 q with
  | none => false
  | some m => decide (1 ≤ m ∧ m ≤ 100)

/-- Whether a character is a decimal digit (Bool form, for string checks). -/
def isDecDigitChar (c : Char) : Bool := decide ('0' ≤ c ∧ c ≤ '9')

/-- Decimal value of a digit string. -/
def decValue (cs : List Char) : Nat :=
  cs.foldl (fun n c => n * 10 + (c.toNat - 48)) 0

/-- The integer denoted by `s` when `s` is exactly a decimal integer literal
(optional leading minus, then only digits); `none` otherwise. -/
def strIntValue? (s : String) : Option Int :=
  match s.data with
  | [] => none
  | '-' :: rest =>
    if !rest.isEmpty && rest.all isDecDigitChar then some (-(decValue rest : Int))
    else none
  | cs =>
    if cs.all isDecDigitChar then some ((decValue cs : Int))
    else none

/-- Modelled from the spec's words (for comparison with the code's test): the
parameter, when present, is written as an integer that is at least 1; an
absent parameter defaults to 1. -/
def specPageIsIntegerGE1 (q : Option String) : Bool :=
  match q with
  | none => true
  | some s =>
    match strIntValue? s with
    | some n => decide (1 ≤ n)
    | none => false

/-! ### GET /api/client-info -/

/-- The five geolocation fields of the `/api/client-info` response body, as
JS values (each is either the provider's value or the string `'N/A'`). -/
structure LocationData where
  city : JVal
  region : JVal
  country : JVal
  latitude : JVal
  longitude : JVal
deriving DecidableEq, Repr

/-- The initial `locationData` object in the handler: all fields `'N/A'`. -/
def defaultLocation : LocationData :=
  ⟨.jstr "N/A", .jstr "N/A", .jstr "N/A", .jstr "N/A", .jstr "N/A"⟩

/-- The body of the ipapi.co JSON response, field by field as JS values
(`undef` models an absent field). -/
structure ProviderData where
  city : JVal
  region : JVal
  country_name : JVal
  latitude : JVal
  longitude : JVal
deriving DecidableEq, Repr

/-- The outcome of `axios.get` on the geolocation URL: `.error` models any
failure (timeout, non-2xx, network error), `.ok` a parsed JSON body. -/
def GeoOutcome : Type := Except Unit ProviderData

/-- The JSON body of the `/api/client-info` response. -/
structure ClientInfoBody where
  ip : String
  userAgent : String
  locationData : LocationData
deriving DecidableEq, Repr

/-- The observable outcome of one `/api/client-info` request: HTTP status and
body, the row handed to `Visit.create` when the write succeeds, and flags
recording whether the geolocation call was made and what was logged. -/
structure ClientInfoResult where
  status : Nat
  body : ClientInfoBody
  stored : Option VisitRec
  geoCalled : Bool
  geoErrorLogged : Bool
  dbErrorLogged : Bool
deriving DecidableEq, Repr

/-- The raw client address before loopback normalization:
`req.headers['x-forwarded-for'] || req.connection.remoteAddress || 'Unknown'`. -/
def rawIp (xff remote : Option String) : String :=
  strOr xff (strOr remote "Unknown")

/-- The normalized client address: `'::1'` and `'127.0.0.1'` become
`'localhost'`. -/
def extractIp (xff remote : Option String) : String :=
  let ip := rawIp xff remote
  if ip == "::1" || ip == "127.0.0.1" then "localhost" else ip

/-- Splits a character list at every `'.'`. -/
def splitDots : List Char → List (List Char)
  | [] => [[]]
  | '.' :: rest => [] :: splitDots rest
  | c :: rest =>
    match splitDots rest with
    | [] => [[c]]
    | g :: gs => (c :: g) :: gs

/-- The value of one dotted-quad octet: one to three decimal digits. -/
def octetValue? (cs : List Char) : Option Nat :=
  if !cs.isEmpty && cs.length ≤ 3 && cs.all isDecDigitChar then some (decValue cs)
  else none

/-- Whether a character sequence is a dotted-quad IPv4 loopback address,
`127.x.y.z`. -/
def isIPv4LoopbackChars (cs : List Char) : Bool :=
  match (splitDots cs).map octetValue? with
  | [some a, some b, some c, some d] =>
    a == 127 && b ≤ 255 && c ≤ 255 && d ≤ 255
  | _ => false

/-- Modelled from the spec: whether a textual client address is a loopback
address — IPv6 `::1`, any IPv4 address `127.x.y.z`, or the IPv4-mapped IPv6
form `::ffff:127.x.y.z` that Node reports for an IPv4 loopback connection on
a dual-stack listener (further compressed IPv6 spellings are omitted; the
claims only need these forms). -/
def isLoopbackAddress (s : String) : Bool :=
  s == "::1" ||
  isIPv4LoopbackChars s.data ||
  (match s.data with
   | ':' :: ':' :: 'f' :: 'f' :: 'f' :: 'f' :: ':' :: rest => isIPv4LoopbackChars rest
   | _ => false)

/-- The `/api/client-info` handler.  `xff`, `remote`, `ua` are the
`x-forwarded-for` header, socket address and `user-agent` header; `geo` maps
an IP to the outcome of the provider call (consulted only when the code
issues the call); `dbOk` is whether `Visit.create` succeeds; `now` is the
store clock filling the `visited_at` column default.  The handler always
responds 200: a geolocation failure degrades to `'N/A'` fields, a store
failure is only logged. -/
def handleClientInfo (xff remote ua : Option String)
    (geo : String → GeoOutcome) (dbOk : Bool) (now : Nat) : ClientInfoResult :=
  let ip := extractIp xff remote
  let userAgent := strOr ua "Unknown"
  let callGeo := !(ip == "localhost") && !(ip == "Unknown")
  let geoStep : LocationData × Bool :=
    if callGeo then
      match geo ip with
      | .ok d =>
        (⟨d.city.orDefault "N/A", d.region.orDefault "N/A",
          d.country_name.orDefault "N/A", d.latitude.orDefault "N/A",
          d.longitude.orDefault "N/A"⟩, false)
      | .error _ => (defaultLocation, true)
    else (defaultLocation, false)
  let locationData := geoStep.1
  let visit : VisitRec :=
    { ip := ip
      user_agent := userAgent
      city := locationData.city
      region := locationData.region
      country := locationData.country
      latitude := locationData.latitude.jsToString
      longitude := locationData.longitude.jsToString
      visited_at := now }
  { status := 200
    body := ⟨ip, userAgent, locationData⟩
    stored := if dbOk then some visit else none
    geoCalled := callGeo
    geoErrorLogged := geoStep.2
    dbErrorLogged := !dbOk }

/-! ### `Date.prototype.toISOString` and GET /_health -/

/-- The character of a decimal digit. -/
def digitChar (d : Nat) : Char := Char.ofNat (48 + d)

/-- Whether a character is a decimal digit. -/
def isDigitChar (c : Char) : Bool := decide ('0' ≤ c ∧ c ≤ '9')

/-- Two-digit zero-padded rendering (as characters). -/
def pad2 (n : Nat) : List Char := [digitChar (n / 10 % 10), digitChar (n % 10)]

/-- Three-digit zero-padded rendering (as characters). -/
def pad3 (n : Nat) : List Char :=
  [digitChar (n / 100 % 10), digitChar (n / 10 % 10), digitChar (n % 10)]

/-- Four-digit zero-padded rendering (as characters). -/
def pad4 (n : Nat) : List Char :=
  [digitChar (n / 1000 % 10), digitChar (n / 100 % 10),
   digitChar (n / 10 % 10), digitChar (n % 10)]

/-- Proleptic-Gregorian date (year, month, day) of a day count since
1970-01-01 (Hinnant's `civil_from_days`, specialised to nonnegative days). -/
def civilFromDays (z : Nat) : Nat × Nat × Nat :=
  let z' := z + 719468
  let era := z' / 146097
  let doe := z' % 146097
  let yoe := (doe - doe / 1460 + doe / 36524 - doe / 146096) / 365
  let y := yoe + era * 400
  let doy := doe - (365 * yoe + yoe / 4 - yoe / 100)
  let mp := (5 * doy + 2) / 153
  let d := doy - (153 * mp + 2) / 5 + 1
  let m := if mp < 10 then mp + 3 else mp - 9
  (if m ≤ 2 then y + 1 else y, m, d)

/-- Model of `new Date(t).toISOString()` for `t` milliseconds since the epoch,
`YYYY-MM-DDTHH:mm:ss.sssZ`.  Exact for dates up to year 9999 (beyond that
JS switches to an expanded-year format not modelled here). -/
def toISOString (t : Nat) : String :=
  let ms := t % 1000
  let s := t / 1000 % 60
  let mi := t / 60000 % 60
  let h := t / 3600000 % 24
  let ymd := civilFromDays (t / 86400000)
  String.mk
    (pad4 ymd.1 ++ '-' :: pad2 ymd.2.1 ++ '-' :: pad2 ymd.2.2 ++
     'T' :: pad2 h ++ ':' :: pad2 mi ++ ':' :: pad2 s ++ '.' :: pad3 ms ++ ['Z'])

/-- Structural check that a string has the ISO-8601 shape
`YYYY-MM-DDTHH:mm:ss.sssZ` produced by `toISOString`. -/
def isISODateTime (s : String) : Bool :=
  match s.data with
  | [y1, y2, y3, y4, h1, m1, m2, h2, d1, d2, tc, o1, o2, c1, n1, n2, c2,
     s1, s2, dot, f1, f2, f3, zc] =>
    isDigitChar y1 && isDigitChar y2 && isDigitChar y3 && isDigitChar y4 &&
    (h1 == '-') && isDigitChar m1 && isDigitChar m2 && (h2 == '-') &&
    isDigitChar d1 && isDigitChar d2 && (tc == 'T') &&
    isDigitChar o1 && isDigitChar o2 && (c1 == ':') &&
    isDigitChar n1 && isDigitChar n2 && (c2 == ':') &&
    isDigitChar s1 && isDigitChar s2 && (dot == '.') &&
    isDigitChar f1 && isDigitChar f2 && isDigitChar f3 && (zc == 'Z')
  | _ => false

/-- The `/_health` response body. -/
structure HealthBody where
  status : String
  database : String
  timestamp : String
deriving DecidableEq, Repr

/-- The `/_health` handler: `authOk` is whether `sequelize.authenticate()`
succeeds, `t` the clock reading. -/
def handleHealth (authOk : Bool) (t : Nat) : Nat × HealthBody :=
  if authOk then (200, ⟨"ok", "connected", toISOString t⟩)
  else (503, ⟨"error", "disconnected", toISOString t⟩)

/-! ### Startup (the IIFE in app.js) -/

/-- The startup environment: `NODE_ENV`, the outcome of fetching the
`DATABASE_URL` secret (consulted only in production), and the outcomes of
`sequelize.authenticate()` and `Visit.sync()`; each error carries its
message. -/
structure StartupEnv where
  nodeEnv : String
  secretResult : Except String String
  authenticateResult : Except String Unit
  syncResult : Except String Unit

/-- The observable outcome of startup: whether `app.listen` ran and the
console log, in order. -/
structure StartupOutcome where
  listening : Bool
  logs : List String
deriving DecidableEq, Repr

/-- The startup IIFE of app.js: in production fetch the secret and throw if
it is unresolved or empty; connect and sync; any thrown error is caught,
logged as a failure to initialize, and `app.listen` is never reached. -/
def runStartup (env : StartupEnv) : StartupOutcome :=
  let fetchLogs : List String :=
    if env.nodeEnv == "production" then ["Fetching secrets for production..."] else []
  let secretStep : Except String Unit :=
    if env.nodeEnv == "production" then
      match env.secretResult with
      | .error e => .error e
      | .ok url => if url == "" then .error "DATABASE_URL is not set." else .ok ()
    else .ok ()
  match secretStep with
  | .error e =>
    ⟨false, fetchLogs ++ ["Failed to initialize application: " ++ e]⟩
  | .ok _ =>
    match env.authenticateResult with
    | .error e =>
      ⟨false, fetchLogs ++ ["Failed to initialize application: " ++ e]⟩
    | .ok _ =>
      match env.syncResult with
      | .error e =>
        ⟨false, fetchLogs ++ ["Database connection established successfully.",
                              "Failed to initialize application: " ++ e]⟩
      | .ok _ =>
        ⟨true, fetchLogs ++ ["Database connection established successfully.",
                             "App running"]⟩

/-! ### The two Visit model definitions (app.js vs models/visit.js) -/

/-- A Sequelize column type, as written in the two model definitions. -/
inductive SqlType where
  | STRING : SqlType
  | TEXT : SqlType
  | FLOAT : SqlType
  | DATE : SqlType
deriving DecidableEq, Repr

/-- The column types of a Visit model definition. -/
structure VisitModelTypes where
  ip : SqlType
  user_agent : SqlType
  city : SqlType
  region : SqlType
  country : SqlType
  latitude : SqlType
  longitude : SqlType
  visited_at : SqlType
deriving DecidableEq, Repr

/-- The inline model in app.js (`sequelize.define('Visit', ...)`). -/
def appVisitModel : VisitModelTypes :=
  ⟨.STRING, .TEXT, .STRING, .STRING, .STRING, .STRING, .STRING, .DATE⟩

/-- The model in src/models/visit.js (`Visit.init(...)`). -/
def visitJsModel : VisitModelTypes :=
  ⟨.STRING, .TEXT, .STRING, .STRING, .STRING, .FLOAT, .FLOAT, .DATE⟩

/-- A sample Visit row used to instantiate the universally quantified
theorems at concrete inputs. -/
def sampleVisit : VisitRec :=
  ⟨"8.8.8.8", "UA", .jstr "City", .jstr "Region", .jstr "Country", "1.5", "2.5", 5⟩

/-! ### Helper lemmas -/

/-- The function `mathCeilDiv` computes the exact rational ceiling of the
division. -/
theorem mathCeilDiv_eq_ceil (a b : ℕ) (hb : 0 < b) :
    (mathCeilDiv a b : ℤ) = ⌈(a : ℚ) / (b : ℚ)⌉ := by
  have hbq : (0 : ℚ) < (b : ℚ) := by exact_mod_cast hb
  symm
  rw [Int.ceil_eq_iff]
  have hmod := Nat.div_add_mod (a + b - 1) b
  have hr : (a + b - 1) % b < b := Nat.mod_lt _ hb
  simp only [mathCeilDiv]
  set z := (a + b - 1) / b with hz
  set r := (a + b - 1) % b with hrdef
  have hab : (1 : ℕ) ≤ a + b := by omega
  zify [hab] at hmod
  have hrZ : ((r : ℤ)) < b := by exact_mod_cast hr
  have hrZ0 : (0 : ℤ) ≤ (r : ℤ) := Int.natCast_nonneg r
  have h1 : ((z : ℤ) - 1) * (b : ℤ) < (a : ℤ) := by
    have expand : ((z : ℤ) - 1) * b = b * z - b := by ring
    linarith
  have h2 : (a : ℤ) ≤ (z : ℤ) * b := by
    have expand : ((z : ℤ)) * b = b * z := by ring
    linarith
  constructor
  · rw [lt_div_iff₀ hbq]
    exact_mod_cast h1
  · rw [div_le_iff₀ hbq]
    exact_mod_cast h2

/-- Every digit character produced by `digitChar` on a reduced digit is a
decimal digit. -/
theorem digitChar_isDigit : ∀ r < 10, isDigitChar (digitChar r) = true := by decide

/-- The character of `n % 10` is a decimal digit. -/
theorem digit_mod10 (n : Nat) : isDigitChar (digitChar (n % 10)) = true :=
  digitChar_isDigit _ (Nat.mod_lt n (by omega))

/-- The string produced by `toISOString` always has the ISO-8601 shape. -/
theorem toISOString_shape (t : Nat) : isISODateTime (toISOString t) = true := by
  simp [toISOString, isISODateTime, pad4, pad3, pad2, digit_mod10]

/-! ### The claims -/

/-- C1, counterexample: the claim says `/api/logs` responds 400 exactly when
the page parameter is not an integer at least 1.  The parameter `"2.7"` is
not an integer, yet the handler accepts it (JS `parseInt` takes the leading
integer prefix `2`), responding 200, not 400. -/
theorem c1_counterexample :
    specPageIsIntegerGE1 (some "2.7") = false
  ∧ handleLogs (some "2.7") none (some []) ≠ .badRequest pageErrMsg
  ∧ (handleLogs (some "2.7") none (some [])).status = 200 := by decide

/-- C1, amended: `/api/logs` responds 400 with the page error exactly when
`parseInt(page)` (leading-integer-prefix parsing, default 1) is NaN or less
than 1; responds 400 with the limit error exactly when the page passes and
`parseInt(limit)` (default 10) is NaN, less than 1, or greater than 100; and
400 is returned precisely when one of the two checks fails, so no other
input is rejected by validation. -/
theorem c1_amended_validation (pq lq : Option String) (db : Option (List VisitRec)) :
    (handleLogs pq lq db = .badRequest pageErrMsg ↔ jsPageOk pq = false)
  ∧ (handleLogs pq lq db = .badRequest limitErrMsg ↔ (jsPageOk pq = true ∧ jsLimitOk lq = false))
  ∧ ((handleLogs pq lq db).status = 400 ↔ (jsPageOk pq = false ∨ jsLimitOk lq = false)) := by
  have hmsg : pageErrMsg ≠ limitErrMsg := by decide
  unfold handleLogs jsPageOk jsLimitOk
  rcases hp : parsedParam 1 pq with _ | p
  · simp [hmsg, LogsResponse.status]
  · by_cases h1 : p < 1
    · simp [h1, hmsg, LogsResponse.status, show ¬(1 ≤ p) by omega]
    · rcases hl : parsedParam 10 lq with _ | m
      · simp [h1, hmsg, LogsResponse.status, show (1 ≤ p) by omega, Ne.symm hmsg]
      · by_cases h2 : m < 1 ∨ 100 < m
        · simp [h1, h2, hmsg, LogsResponse.status, show (1 ≤ p) by omega,
            show ¬(1 ≤ m ∧ m ≤ 100) by omega, Ne.symm hmsg]
        · rcases db with _ | all <;>
            simp [h1, h2, LogsResponse.status, show (1 ≤ p) by omega,
              show (1 ≤ m ∧ m ≤ 100) by omega]

/-- C1, witness for the amended theorem: `page = "0"` is rejected with the
page validation error. -/
theorem c1_witness : handleLogs (some "0") none (some []) = .badRequest pageErrMsg :=
  (c1_amended_validation (some "0") none (some [])).1.mpr (by decide)

/-- C2: for every valid page `p ≥ 1` and limit `1 ≤ m ≤ 100`, the successful
`/api/logs` response has `totalRecords` the table size, `currentPage = p`,
`totalPages` the rational ceiling of `totalRecords / m`, and `logs` the slice
`[(p-1)*m, p*m)` of the rows ordered by `visited_at` descending, holding at
most `m` rows and itself sorted descending. -/
theorem c2_pagination (pq lq : Option String) (all : List VisitRec) (p m : Int)
    (hp : parsedParam 1 pq = some p) (hm : parsedParam 10 lq = some m)
    (hp1 : 1 ≤ p) (hm1 : 1 ≤ m) (hm100 : m ≤ 100) :
    handleLogs pq lq (some all) =
      .ok all.length p (mathCeilDiv all.length m.toNat)
        (((sortByVisitedAtDesc all).drop ((p - 1) * m).toNat).take m.toNat)
  ∧ (mathCeilDiv all.length m.toNat : ℤ) = ⌈(all.length : ℚ) / ((m : ℚ))⌉
  ∧ (((sortByVisitedAtDesc all).drop ((p - 1) * m).toNat).take m.toNat).length ≤ m.toNat
  ∧ List.Sorted visitDescRel
      (((sortByVisitedAtDesc all).drop ((p - 1) * m).toNat).take m.toNat) := by
  have hm0 : 0 < m.toNat := by omega
  have hnp : ¬(p < 1) := by omega
  have hnm : ¬(m < 1 ∨ 100 < m) := by omega
  refine ⟨?_, ?_, ?_, ?_⟩
  · unfold handleLogs findAndCountAll
    simp only [hp, hm, if_neg hnp, if_neg hnm]
  · rw [mathCeilDiv_eq_ceil _ _ hm0]
    have hq : ((m.toNat : ℚ)) = (m : ℚ) := by
      exact_mod_cast congrArg (fun z : ℤ => ((z : ℚ)))
        (Int.toNat_of_nonneg (show (0 : ℤ) ≤ m by omega))
    rw [hq]
  · exact List.length_take_le _ _
  · exact List.Pairwise.sublist ((List.take_sublist _ _).trans (List.drop_sublist _ _))
      (List.sorted_insertionSort visitDescRel all)

/-- C2, witness: page 1, limit 10 on a one-row table returns that row with
one total page. -/
theorem c2_witness :
    handleLogs (some "1") (some "10") (some [sampleVisit]) = .ok 1 1 1 [sampleVisit] :=
  (c2_pagination (some "1") (some "10") [sampleVisit] 1 10 (by decide) (by decide)
    (by decide) (by decide) (by decide)).1

/-- C3: when the Visit store create fails, `/api/client-info` still responds
200 with a body identical to the success case, and the failure is only
logged. -/
theorem c3_db_failure_transparent (xff remote ua : Option String)
    (geo : String → GeoOutcome) (now : Nat) :
    (handleClientInfo xff remote ua geo false now).status = 200
  ∧ (handleClientInfo xff remote ua geo false now).body =
      (handleClientInfo xff remote ua geo true now).body
  ∧ (handleClientInfo xff remote ua geo false now).dbErrorLogged = true :=
  ⟨rfl, rfl, rfl⟩

/-- C4, counterexample: the claim counts "missing fields" among the failure
modes that must yield all five locationData fields `"N/A"`, but a 200
provider body with only a city (all other fields missing) takes the success
path, where the code keeps the supplied field: the response has
`city = "Paris"`, not `"N/A"`, while the missing fields default
individually. -/
theorem c4_counterexample :
    (handleClientInfo (some "8.8.8.8") none none
      (fun _ => Except.ok ⟨.jstr "Paris", .undef, .undef, .undef, .undef⟩)
      true 0).status = 200
  ∧ (handleClientInfo (some "8.8.8.8") none none
      (fun _ => Except.ok ⟨.jstr "Paris", .undef, .undef, .undef, .undef⟩)
      true 0).body.locationData.city = .jstr "Paris"
  ∧ (handleClientInfo (some "8.8.8.8") none none
      (fun _ => Except.ok ⟨.jstr "Paris", .undef, .undef, .undef, .undef⟩)
      true 0).body.locationData.city ≠ .jstr "N/A"
  ∧ (handleClientInfo (some "8.8.8.8") none none
      (fun _ => Except.ok ⟨.jstr "Paris", .undef, .undef, .undef, .undef⟩)
      true 0).body.locationData.region = .jstr "N/A" := by decide

/-- C4, amended: for a non-localhost, non-Unknown client address the handler
always responds 200 and never raises, with a single provider call and no
retry; when the call throws (timeout, non-2xx, network error) every
locationData field is `"N/A"` and the failure is logged, and when the call
returns a body each of the five fields is defaulted individually: the
provider's value when it is truthy, `"N/A"` when that field is missing,
null, empty, or zero. -/
theorem c4_amended_geo_mapping (xff remote ua : Option String)
    (geo : String → GeoOutcome) (dbOk : Bool) (now : Nat) (d : ProviderData)
    (h1 : extractIp xff remote ≠ "localhost") (h2 : extractIp xff remote ≠ "Unknown") :
    (geo (extractIp xff remote) = Except.error () →
      (handleClientInfo xff remote ua geo dbOk now).status = 200
      ∧ (handleClientInfo xff remote ua geo dbOk now).body.locationData = defaultLocation
      ∧ (handleClientInfo xff remote ua geo dbOk now).geoErrorLogged = true)
  ∧ (geo (extractIp xff remote) = Except.ok d →
      (handleClientInfo xff remote ua geo dbOk now).status = 200
      ∧ (handleClientInfo xff remote ua geo dbOk now).body.locationData =
          ⟨if d.city.truthy then d.city else .jstr "N/A",
           if d.region.truthy then d.region else .jstr "N/A",
           if d.country_name.truthy then d.country_name else .jstr "N/A",
           if d.latitude.truthy then d.latitude else .jstr "N/A",
           if d.longitude.truthy then d.longitude else .jstr "N/A"⟩
      ∧ (handleClientInfo xff remote ua geo dbOk now).geoErrorLogged = false) := by
  refine ⟨fun hg => ⟨rfl, ?_, ?_⟩, fun hg => ⟨rfl, ?_, ?_⟩⟩ <;>
    simp [handleClientInfo, h1, h2, hg, JVal.orDefault, defaultLocation]

/-- C4, witness: a provider body with truthy city and country, missing
region, zero latitude and null longitude yields exactly the field-wise
defaults. -/
theorem c4_witness :
    (handleClientInfo (some "9.9.9.9") none none
      (fun _ => Except.ok ⟨.jstr "Paris", .undef, .jstr "France", .jnum 0 "0", .jnull⟩)
      true 0).status = 200
  ∧ (handleClientInfo (some "9.9.9.9") none none
      (fun _ => Except.ok ⟨.jstr "Paris", .undef, .jstr "France", .jnum 0 "0", .jnull⟩)
      true 0).body.locationData =
      ⟨.jstr "Paris", .jstr "N/A", .jstr "France", .jstr "N/A", .jstr "N/A"⟩
  ∧ (handleClientInfo (some "9.9.9.9") none none
      (fun _ => Except.ok ⟨.jstr "Paris", .undef, .jstr "France", .jnum 0 "0", .jnull⟩)
      true 0).geoErrorLogged = false :=
  (c4_amended_geo_mapping (some "9.9.9.9") none none
    (fun _ => Except.ok ⟨.jstr "Paris", .undef, .jstr "France", .jnum 0 "0", .jnull⟩)
    true 0 ⟨.jstr "Paris", .undef, .jstr "France", .jnum 0 "0", .jnull⟩
    (by decide) (by decide)).2 rfl

/-- C5, counterexample: the claim covers every loopback client address, but
the code normalizes only the two literals `::1` and `127.0.0.1`: for the
genuine loopback addresses `::ffff:127.0.0.1` (Node's remoteAddress for an
IPv4 loopback connection on a dual-stack listener) and `127.0.0.2` the ip is
not `"localhost"` and the geolocation call is issued. -/
theorem c5_counterexample :
    isLoopbackAddress "::ffff:127.0.0.1" = true
  ∧ rawIp (some "::ffff:127.0.0.1") none = "::ffff:127.0.0.1"
  ∧ (handleClientInfo (some "::ffff:127.0.0.1") none none
      (fun _ => Except.error ()) true 0).body.ip ≠ "localhost"
  ∧ (handleClientInfo (some "::ffff:127.0.0.1") none none
      (fun _ => Except.error ()) true 0).geoCalled = true
  ∧ isLoopbackAddress "127.0.0.2" = true
  ∧ (handleClientInfo (some "127.0.0.2") none none
      (fun _ => Except.error ()) true 0).body.ip ≠ "localhost"
  ∧ (handleClientInfo (some "127.0.0.2") none none
      (fun _ => Except.error ()) true 0).geoCalled = true := by decide

/-- C5, amended: when the raw client address is one of the two literals the
code normalizes, `::1` or `127.0.0.1`, the response has `ip = "localhost"`,
the geolocation call is skipped (the outcome does not depend on the provider
at all), and every locationData field is `"N/A"`; other loopback forms are
not normalized and do not skip the call. -/
theorem c5_loopback_skips_geo (xff remote ua : Option String)
    (geo geo' : String → GeoOutcome) (dbOk : Bool) (now : Nat)
    (h : rawIp xff remote = "::1" ∨ rawIp xff remote = "127.0.0.1") :
    handleClientInfo xff remote ua geo dbOk now =
      handleClientInfo xff remote ua geo' dbOk now
  ∧ (handleClientInfo xff remote ua geo dbOk now).body.ip = "localhost"
  ∧ (handleClientInfo xff remote ua geo dbOk now).geoCalled = false
  ∧ (handleClientInfo xff remote ua geo dbOk now).body.locationData = defaultLocation := by
  have hip : extractIp xff remote = "localhost" := by
    unfold extractIp
    rcases h with h | h <;> simp [h]
  refine ⟨?_, ?_, ?_, ?_⟩ <;> simp [handleClientInfo, hip]

/-- C5, witness: a request with `x-forwarded-for: ::1` yields
`ip = "localhost"`, no geolocation call, and `"N/A"` fields, for any two
provider behaviours. -/
theorem c5_witness :
    handleClientInfo (some "::1") none none (fun _ => Except.error ()) true 0 =
      handleClientInfo (some "::1") none none
        (fun _ => Except.ok ⟨.jstr "x", .jstr "x", .jstr "x", .jstr "x", .jstr "x"⟩) true 0
  ∧ (handleClientInfo (some "::1") none none
      (fun _ => Except.error ()) true 0).body.ip = "localhost"
  ∧ (handleClientInfo (some "::1") none none
      (fun _ => Except.error ()) true 0).geoCalled = false
  ∧ (handleClientInfo (some "::1") none none
      (fun _ => Except.error ()) true 0).body.locationData = defaultLocation :=
  c5_loopback_skips_geo _ _ _ _ _ _ _ (Or.inl (by decide))

/-- C6: in production mode, if the secret fetch fails, resolves to an empty
value, or the store liveness check fails, startup never reaches
`app.listen` (no requests are ever served) and the failure is logged with
its message. -/
theorem c6_startup_abort (env : StartupEnv)
    (hprod : env.nodeEnv = "production")
    (hfail : (∃ e, env.secretResult = Except.error e) ∨ env.secretResult = Except.ok "" ∨
             (∃ e, env.authenticateResult = Except.error e)) :
    (runStartup env).listening = false ∧
    ∃ m, ("Failed to initialize application: " ++ m) ∈ (runStartup env).logs := by
  rcases hsec : env.secretResult with se | url
  · exact ⟨by simp [runStartup, hprod, hsec], ⟨se, by simp [runStartup, hprod, hsec]⟩⟩
  · by_cases hurl : url = ""
    · subst hurl
      exact ⟨by simp [runStartup, hprod, hsec],
        ⟨"DATABASE_URL is not set.", by simp [runStartup, hprod, hsec]⟩⟩
    · rcases hfail with ⟨e, he⟩ | he | ⟨e, he⟩
      · rw [hsec] at he; cases he
      · rw [hsec] at he; injection he with h; exact absurd h hurl
      · exact ⟨by simp [runStartup, hprod, hsec, hurl, he],
          ⟨e, by simp [runStartup, hprod, hsec, hurl, he]⟩⟩

/-- C6, witness: a failing secret fetch in production leaves the listener
unbound and logs the initialization failure. -/
theorem c6_witness :
    (runStartup ⟨"production", Except.error "boom", Except.ok (), Except.ok ()⟩).listening = false ∧
    ∃ m, ("Failed to initialize application: " ++ m) ∈
      (runStartup ⟨"production", Except.error "boom", Except.ok (), Except.ok ()⟩).logs :=
  c6_startup_abort _ rfl (Or.inl ⟨"boom", rfl⟩)

/-- C7: `/_health` responds 200 with `status:"ok", database:"connected"`
when the liveness probe succeeds and 503 with
`status:"error", database:"disconnected"` when it fails, and in both cases
the `timestamp` field is an ISO-formatted datetime string (the bound keeps
the date below year 10000, where the modelled `toISOString` format is
exact). -/
theorem c7_health_contract (authOk : Bool) (t : Nat) (h : t < 253402300800000) :
    handleHealth true t = (200, ⟨"ok", "connected", toISOString t⟩)
  ∧ handleHealth false t = (503, ⟨"error", "disconnected", toISOString t⟩)
  ∧ isISODateTime (handleHealth authOk t).2.timestamp = true := by
  refine ⟨rfl, rfl, ?_⟩
  cases authOk <;> simp [handleHealth, toISOString_shape]

/-- C7, witness: the health contract at the clock reading
2025-01-15T10:30:00.000Z. -/
theorem c7_witness :
    handleHealth true 1736937000000 =
      (200, ⟨"ok", "connected", toISOString 1736937000000⟩)
  ∧ handleHealth false 1736937000000 =
      (503, ⟨"error", "disconnected", toISOString 1736937000000⟩)
  ∧ isISODateTime (handleHealth true 1736937000000).2.timestamp = true :=
  c7_health_contract true 1736937000000 (by norm_num)

/-- C8, counterexample: the typing of latitude/longitude is not consistent
across the two Visit model definitions: app.js declares STRING, while
src/models/visit.js declares FLOAT. -/
theorem c8_counterexample :
    appVisitModel.latitude = SqlType.STRING ∧ visitJsModel.latitude = SqlType.FLOAT
  ∧ appVisitModel ≠ visitJsModel := by decide

/-- C8, amended: every Visit persisted by the capture endpoint stores
latitude and longitude as text (the inline app.js model declares STRING and
the stored values are the `.toString()` of the response fields), but this
typing is not shared by the unused model in src/models/visit.js, which
declares FLOAT. -/
theorem c8_amended_types (xff remote ua : Option String)
    (geo : String → GeoOutcome) (now : Nat) :
    appVisitModel.latitude = SqlType.STRING ∧ appVisitModel.longitude = SqlType.STRING
  ∧ visitJsModel.latitude = SqlType.FLOAT ∧ visitJsModel.longitude = SqlType.FLOAT
  ∧ ∃ v, (handleClientInfo xff remote ua geo true now).stored = some v
      ∧ v.latitude =
          (handleClientInfo xff remote ua geo true now).body.locationData.latitude.jsToString
      ∧ v.longitude =
          (handleClientInfo xff remote ua geo true now).body.locationData.longitude.jsToString :=
  ⟨rfl, rfl, rfl, rfl, _, rfl, rfl, rfl⟩

/-- C9: a successful provider response with an empty-string city and zero
latitude/longitude is mapped field-wise to `"N/A"` in the response and in
the persisted Visit, because `||` treats the present-but-falsy values as
absent (the non-falsy region and country survive). -/
theorem c9_falsy_fields_na :
    (handleClientInfo (some "8.8.8.8") none (some "UA")
      (fun _ => Except.ok ⟨.jstr "", .jstr "Ontario", .jstr "Canada", .jnum 0 "0", .jnum 0 "0"⟩)
      true 7).body.locationData.city = .jstr "N/A"
  ∧ (handleClientInfo (some "8.8.8.8") none (some "UA")
      (fun _ => Except.ok ⟨.jstr "", .jstr "Ontario", .jstr "Canada", .jnum 0 "0", .jnum 0 "0"⟩)
      true 7).body.locationData.latitude = .jstr "N/A"
  ∧ (handleClientInfo (some "8.8.8.8") none (some "UA")
      (fun _ => Except.ok ⟨.jstr "", .jstr "Ontario", .jstr "Canada", .jnum 0 "0", .jnum 0 "0"⟩)
      true 7).body.locationData.longitude = .jstr "N/A"
  ∧ (handleClientInfo (some "8.8.8.8") none (some "UA")
      (fun _ => Except.ok ⟨.jstr "", .jstr "Ontario", .jstr "Canada", .jnum 0 "0", .jnum 0 "0"⟩)
      true 7).stored =
      some ⟨"8.8.8.8", "UA", .jstr "N/A", .jstr "Ontario", .jstr "Canada", "N/A", "N/A", 7⟩ := by
  decide

/-- C10: whenever the persistence write succeeds, the created Visit row
agrees field-for-field with the JSON response body, with latitude and
longitude stored after string conversion. -/
theorem c10_stored_matches_response (xff remote ua : Option String)
    (geo : String → GeoOutcome) (now : Nat) :
    ∃ v, (handleClientInfo xff remote ua geo true now).stored = some v
  ∧ v.ip = (handleClientInfo xff remote ua geo true now).body.ip
  ∧ v.user_agent = (handleClientInfo xff remote ua geo true now).body.userAgent
  ∧ v.city = (handleClientInfo xff remote ua geo true now).body.locationData.city
  ∧ v.region = (handleClientInfo xff remote ua geo true now).body.locationData.region
  ∧ v.country = (handleClientInfo xff remote ua geo true now).body.locationData.country
  ∧ v.latitude =
      (handleClientInfo xff remote ua geo true now).body.locationData.latitude.jsToString
  ∧ v.longitude =
      (handleClientInfo xff remote ua geo true now).body.locationData.longitude.jsToString :=
  ⟨_, rfl, rfl, rfl, rfl, rfl, rfl, rfl, rfl⟩
